import Mathlib

/-!
Verification development for the `pe-eng` retail price-governance service.

The Python source is shallowly embedded: prices and numeric configuration
values are rationals, pandas DataFrames are lists of typed rows, `NaN` /
missing numeric cells are `Option` values, and Python code that can raise
is made total with `Option`.  Definitions come first, theorems after.
-/

set_option linter.unusedVariables false

namespace PEEng

/-- A row of the products table (`product_id`, `price`, `unit_price`);
`categories` and `attributes` are not needed by the verified claims. -/
structure ProductRow where
  product_id : String
  price : ℚ
  unit_price : ℚ
  deriving Repr, DecidableEq

/-- A row of the item-groups table. -/
structure GroupRow where
  group_id : String
  group_type : String
  use_price_per_unit : Bool
  deriving Repr, DecidableEq

/-- A row of the item-group-members table; `order`, `min_index` and
`max_index` are numeric columns whose cells may be missing (`NaN`). -/
structure MemberRow where
  group_id : String
  product_id : String
  order : Option ℚ
  min_index : Option ℚ
  max_index : Option ℚ
  deriving Repr, DecidableEq

/-- `pandas.unique`: first occurrence of each element, in order. -/
def pdUnique (l : List String) : List String :=
  go l []
where
  go : List String → List String → List String
  | [], _ => []
  | x :: xs, seen => if seen.contains x then go xs seen else x :: go xs (x :: seen)

/-! ## Configuration (`src/config/config.py`) -/

/-- A YAML configuration value: scalars or nested mappings.  The mapping is
an association list whose lookup takes the first matching key, matching a
Python `dict` in which keys are unique. -/
inductive ConfigVal where
  | num (q : ℚ)
  | str (s : String)
  | boolean (b : Bool)
  | dict (entries : List (String × ConfigVal))

/-- `k in d` / `d[k]` on a Python dict, as first-match association lookup. -/
def dictLookup (entries : List (String × ConfigVal)) (k : String) : Option ConfigVal :=
  match entries with
  | [] => none
  | (k', v) :: rest => if k' = k then some v else dictLookup rest k

/-- Python `key.split(".")`: split the key on every dot character. -/
def pySplitDot (s : String) : List String :=
  go s.data []
where
  go : List Char → List Char → List String
  | [], acc => [String.mk acc.reverse]
  | c :: cs, acc => if c = '.' then String.mk acc.reverse :: go cs [] else go cs (c :: acc)

/-- The loop body of `Config.get` (src/config/config.py lines 176-185):
walk the already-split key segments; at each step require the current
value to be a dict containing the segment, else return the default. -/
def configGetSegs (segs : List String) (value : ConfigVal) (default : ConfigVal) : ConfigVal :=
  match segs with
  | [] => value
  | k :: ks =>
    match value with
    | .dict entries =>
      match dictLookup entries k with
      | some v => configGetSegs ks v default
      | none => default
    | _ => default

/-- `Config.get(key, default)`: split the dotted key and walk the layered
configuration, returning `default` on any miss. -/
def configGet (root : ConfigVal) (key : String) (default : ConfigVal) : ConfigVal :=
  configGetSegs (pySplitDot key) root default

/-- The value stored at a key path, phrased from the specification: follow
the segments through nested mappings; the result is absent whenever a
segment is absent or a value reached before the final segment is not a
mapping. -/
def storedAtPath (value : ConfigVal) (segs : List String) : Option ConfigVal :=
  match segs with
  | [] => some value
  | k :: ks =>
    match value with
    | .dict entries => (dictLookup entries k).bind (fun v => storedAtPath v ks)
    | _ => none

/-! ## Price snapping (`src/core/optimization/engine.py` lines 139-154) -/

/-- `_find_nearest_price_ladder`: with an empty ladder the price is
returned unchanged; otherwise the ladder entry with the smallest absolute
difference is returned, the first such entry on ties (`np.argmin`). -/
def findNearestPriceLadder (ladder : List ℚ) (price : ℚ) : ℚ :=
  match ladder with
  | [] => price
  | x :: xs => xs.foldl (fun best l => if |l - price| < |best - price| then l else best) x

/-! ## API-key middleware of the web-service binding (`src/app.py` lines 71-94) -/

/-- The `public_paths` allow-list of `validate_api_key`. -/
def publicPaths : List String := ["/docs", "/redoc", "/openapi.json", "/ping", "/"]

/-- Python `s.startswith(p)`, as character-list prefix. -/
def pyStartswith (s p : String) : Bool :=
  p.data.isPrefixOf s.data

/-- `any(request.url.path.startswith(path) for path in public_paths)`. -/
def isPublicPath (path : String) : Bool :=
  publicPaths.any (fun p => pyStartswith path p)

/-- Outcome of the middleware: either the request is forwarded to the rest
of the chain (`call_next`, ending at the endpoint handler) or a 401
response with body `{success: false, error: "Invalid or missing API key"}`
is returned without invoking the handler. -/
inductive AuthOutcome where
  | forwarded
  | unauthorized401
  deriving Repr, DecidableEq

/-- The `validate_api_key` middleware: skip auth when the path starts with
an allow-listed prefix; otherwise reject when the `X-API-Key` header is
missing, empty (`not api_key`), or differs from the configured key. -/
def validateApiKey (path : String) (apiKeyHeader : Option String)
    (expectedKey : String) : AuthOutcome :=
  if isPublicPath path then .forwarded
  else
    match apiKeyHeader with
    | none => .unauthorized401
    | some k => if k = "" ∨ k ≠ expectedKey then .unauthorized401 else .forwarded

/-! ## Constraint metadata (`src/core/constraints/base.py`, `equal_price.py`) -/

/-- `Constraint.PRIORITY_MEDIUM` (base.py line 24). -/
def PRIORITY_MEDIUM : ℤ := 3

/-- The Python attribute slots `_priority` and `_relaxable` of a
constraint object; `none` models an attribute that was never assigned, so
that reading it raises `AttributeError`. -/
structure ConstraintAttrs where
  priorityAttr : Option ℤ
  relaxableAttr : Option Bool
  deriving Repr, DecidableEq

/-- `Constraint.__init__` (base.py lines 27-31): assigns the default
priority (medium) and marks the constraint relaxable. -/
def constraintBaseInit : ConstraintAttrs :=
  { priorityAttr := some PRIORITY_MEDIUM, relaxableAttr := some true }

/-- The `priority` property getter (base.py lines 33-36): returns
`self._priority`, failing (`AttributeError`) when the slot is unassigned. -/
def readPriority (a : ConstraintAttrs) : Option ℤ := a.priorityAttr

/-- The `relaxable` property getter (base.py lines 43-46). -/
def readRelaxable (a : ConstraintAttrs) : Option Bool := a.relaxableAttr

/-- An `EqualPriceConstraint` object as built by its `__init__`. -/
structure EqualPriceConstraintObj where
  group_id : String
  product_ids : List String
  attrs : ConstraintAttrs
  deriving Repr, DecidableEq

/-- `EqualPriceConstraint.__init__` (equal_price.py lines 19-28): assigns
`self.group_id` and `self.product_ids` only — it does not invoke
`super().__init__()`, so `_priority` and `_relaxable` are never assigned
on the instance. -/
def mkEqualPriceConstraint (gid : String) (pids : List String) : EqualPriceConstraintObj :=
  { group_id := gid, product_ids := pids,
    attrs := { priorityAttr := none, relaxableAttr := none } }

/-- A `RelativePriceOrderConstraint` object as built by its `__init__`
(relative_price_order.py lines 19-35): calls `super().__init__()` and then
re-assigns `_priority` to the medium level. -/
structure RelativePriceOrderConstraintObj where
  group_id : String
  df_members : List MemberRow
  use_price_per_unit : Bool
  attrs : ConstraintAttrs
  deriving Repr, DecidableEq

def mkRelativePriceOrderConstraint (gid : String) (members : List MemberRow)
    (usePPU : Bool) : RelativePriceOrderConstraintObj :=
  { group_id := gid, df_members := members, use_price_per_unit := usePPU,
    attrs := { constraintBaseInit with priorityAttr := some PRIORITY_MEDIUM } }

/-! ## Price-ladder generation (`src/core/optimization/engine.py` lines 61-94) -/

/-- Python `int(...)` on a rational: truncation toward zero. -/
def pyTrunc (q : ℚ) : ℤ :=
  if 0 ≤ q then ⌊q⌋ else ⌈q⌉

/-- `ladder_type == "x.99"` where `ladder_type` is
`config.get("price_ladder.type", "x.99")`; a non-string configured value
never equals the string literal in Python. -/
def ladderTypeIsX99 (root : ConfigVal) : Bool :=
  match configGet root "price_ladder.type" (.str "x.99") with
  | .str s => s = "x.99"
  | _ => false

/-- `config.get("price_ladder.max_price", 2000)` read as a number; a
non-numeric configured value would make the arithmetic below raise, hence
`none`. -/
def cfgMaxPrice (root : ConfigVal) : Option ℚ :=
  match configGet root "price_ladder.max_price" (.num 2000) with
  | .num q => some q
  | _ => none

/-- The configuration-driven branch of `_generate_price_ladder`: for type
`"x.99"`, `[float(f"{i}.99") for i in range(int(max_price))]`; otherwise
`[round(i * 0.01, 2) for i in range(1, int(max_price * 100) + 1)]`. -/
def generatePriceLadderFromConfig (root : ConfigVal) : Option (List ℚ) :=
  (cfgMaxPrice root).map (fun maxPrice =>
    if ladderTypeIsX99 root then
      (List.range (pyTrunc maxPrice).toNat).map (fun i : ℕ => (i : ℚ) + 99/100)
    else
      (List.range' 1 (pyTrunc (maxPrice * 100)).toNat).map (fun i : ℕ => (i : ℚ) / 100))

/-- A concrete configuration used to witness the ladder theorems. -/
def cfgX99Demo : ConfigVal :=
  .dict [("price_ladder", .dict [("type", .str "x.99"), ("max_price", .num 3)])]

/-! ## Violations (`src/core/violations/violation.py`, constraint checks) -/

/-- One detected violation row, with the fields produced by the constraint
checks; `order` is absent on violation kinds that do not report it. -/
structure Violation where
  product_id : String
  constraint_type : String
  group_id : String
  expected_value : ℚ
  actual_value : ℚ
  order : Option ℚ
  reference_product_id : String
  deriving Repr, DecidableEq

/-- `ViolationsSummary` of `get_violations_summary` (violation.py lines
218-245): total count, distinct products, count per constraint type. -/
structure ViolationsSummary where
  total_violations : ℕ
  products_with_violations : ℕ
  violation_types : List (String × ℕ)
  deriving Repr, DecidableEq

/-- `value_counts().to_dict()` as (value, count) pairs in first-appearance
order (the dictionary's iteration order is not relied upon). -/
def valueCounts (l : List String) : List (String × ℕ) :=
  (pdUnique l).map (fun s => (s, (l.filter (fun t => t = s)).length))

/-- `get_violations_summary` (violation.py lines 218-245). -/
def getViolationsSummary (dfv : List Violation) : ViolationsSummary :=
  if dfv = [] then
    { total_violations := 0, products_with_violations := 0, violation_types := [] }
  else
    { total_violations := dfv.length,
      products_with_violations := (pdUnique (dfv.map (fun v => v.product_id))).length,
      violation_types := valueCounts (dfv.map (fun v => v.constraint_type)) }

/-- A `ViolationDetector` after construction (violation.py lines 21-42):
the product table and the `self.constraints` dict built by
`_build_constraints`, mapping each category name (`equal_price`,
`good_better_best`, `bigger_pack_better_value`) to the check functions of
the constraint instances built for that category. -/
structure ViolationDetectorObj where
  df_products : List ProductRow
  constraints : List (String × List (List ProductRow → List Violation))

/-- `constraint_type in self.constraints` + indexing. -/
def bucketLookup (buckets : List (String × List (List ProductRow → List Violation)))
    (k : String) : Option (List (List ProductRow → List Violation)) :=
  match buckets with
  | [] => none
  | (k', v) :: rest => if k' = k then some v else bucketLookup rest k

/-- `ViolationDetector.detect_violations` (violation.py lines 165-216):
filter the product table when a *truthy* (non-empty) id list is given;
return no violations when the filtered table is empty; default the
category list to all categories when `None`; skip unknown category names;
concatenate every remaining check's violations. -/
def detectViolations (d : ViolationDetectorObj)
    (constraint_types : Option (List String))
    (product_ids : Option (List String)) : List Violation :=
  let df_products :=
    match product_ids with
    | some ids =>
      if ids = [] then d.df_products
      else d.df_products.filter (fun p => ids.contains p.product_id)
    | none => d.df_products
  if df_products = [] then []
  else
    let cts :=
      match constraint_types with
      | none => d.constraints.map Prod.fst
      | some l => l
    cts.flatMap (fun ct =>
      match bucketLookup d.constraints ct with
      | none => []
      | some checks => checks.flatMap (fun check => check df_products))

/-! ## Optimization engine results and hygiene mode
(`src/core/optimization/engine.py` lines 197-240) -/

/-- One entry of `optimized_prices` (engine.py lines 504-525). -/
structure OptimizedPrice where
  product_id : String
  current_price : ℚ
  optimized_price : ℚ
  optimized_price_on_ladder : ℚ
  price_change_pct : ℚ
  deriving Repr, DecidableEq

/-- The result dictionary of an engine run; keys absent from a given
result are `none`. -/
structure EngineRunResult where
  success : Bool
  mode : Option String
  message : Option String
  status : Option String
  error : Option String
  optimized_prices : List OptimizedPrice
  violations : List Violation
  summary : ViolationsSummary
  deriving Repr, DecidableEq

/-- `run_hygiene_optimization` (engine.py lines 197-240): first detect
violations over the requested scope; when none are found return
immediately with the explanatory message and an empty price list;
otherwise run the linear-program model (`_run_optimization_model`,
abstracted here as `runModel`) and stamp the mode onto its result. -/
def runHygieneOptimization (d : ViolationDetectorObj)
    (runModel : List String → EngineRunResult)
    (scope_product_ids : List String) : EngineRunResult :=
  let df_violations := detectViolations d none (some scope_product_ids)
  let violations_summary := getViolationsSummary df_violations
  if df_violations = [] then
    { success := true, mode := some "hygiene_optimization",
      message := some "No violations found. No price changes needed.",
      status := none, error := none,
      optimized_prices := [], violations := [],
      summary := violations_summary }
  else
    let result := runModel scope_product_ids
    { result with mode := some "hygiene_optimization" }

/-- A detector with one product and no constraints (no violations). -/
def detectorDemo : ViolationDetectorObj :=
  { df_products := [{ product_id := "p1", price := 1, unit_price := 1 }],
    constraints := [] }

/-- Two distinct stand-ins for `_run_optimization_model`, used to witness
that the hygiene early return never consults the model run. -/
def demoRunResultA : EngineRunResult :=
  { success := true, mode := none, message := none, status := some "Optimal",
    error := none, optimized_prices := [], violations := [],
    summary := { total_violations := 0, products_with_violations := 0, violation_types := [] } }

def demoRunResultB : EngineRunResult :=
  { success := false, mode := none, message := none, status := none,
    error := some "Optimization failed with status: Infeasible",
    optimized_prices := [], violations := [],
    summary := { total_violations := 0, products_with_violations := 0, violation_types := [] } }

/-! ## Relative price-order check
(`src/core/constraints/relative_price_order.py` lines 37-130) -/

/-- `pd.merge(self.df_members, df_products, on="product_id", how="inner")`:
each member row paired with every matching product row, left order. -/
def rpoMerged (c : RelativePriceOrderConstraintObj) (dfp : List ProductRow) :
    List (MemberRow × ProductRow) :=
  c.df_members.flatMap (fun m =>
    (dfp.filter (fun p => p.product_id == m.product_id)).map (fun p => (m, p)))

/-- The compared value: `unit_price` when the group's `use_price_per_unit`
flag is set, `price` otherwise. -/
def rpoValue (c : RelativePriceOrderConstraintObj) (p : ProductRow) : ℚ :=
  if c.use_price_per_unit then p.unit_price else p.price

/-- The float-comparison epsilon `1e-6`. -/
def rpoEps : ℚ := 1/1000000

/-- The base-index violation row appended at lines 86-96. -/
def rpoBaseViolation (c : RelativePriceOrderConstraintObj) (base_product_id : String)
    (p : ProductRow) (o : ℚ) (actual : ℚ) : Violation :=
  { product_id := p.product_id, constraint_type := "relative_price_order_base",
    group_id := c.group_id, expected_value := 100, actual_value := actual,
    order := some o, reference_product_id := base_product_id }

/-- The min-index violation row appended at lines 99-110. -/
def rpoMinViolation (c : RelativePriceOrderConstraintObj) (base_product_id : String)
    (p : ProductRow) (o mi actual : ℚ) : Violation :=
  { product_id := p.product_id, constraint_type := "relative_price_order_min",
    group_id := c.group_id, expected_value := mi, actual_value := actual,
    order := some o, reference_product_id := base_product_id }

/-- The max-index violation row appended at lines 111-122. -/
def rpoMaxViolation (c : RelativePriceOrderConstraintObj) (base_product_id : String)
    (p : ProductRow) (o ma actual : ℚ) : Violation :=
  { product_id := p.product_id, constraint_type := "relative_price_order_max",
    group_id := c.group_id, expected_value := ma, actual_value := actual,
    order := some o, reference_product_id := base_product_id }

/-- The loop body over a merged row (lines 72-122): compute the actual
index; members with missing order (`NaN` compares false) produce nothing;
order 1 is flagged when the index strays from 100 beyond the epsilon;
orders above 1 are flagged against `min_index` and `max_index` when those
bounds are present. -/
def rpoRowCheck (c : RelativePriceOrderConstraintObj) (base_product_id : String)
    (base_price : ℚ) (mp : MemberRow × ProductRow) : List Violation :=
  let actual_index := rpoValue c mp.2 / base_price * 100
  match mp.1.order with
  | none => []
  | some o =>
    if o = 1 then
      if rpoEps < |actual_index - 100| then
        [rpoBaseViolation c base_product_id mp.2 o actual_index]
      else []
    else if 1 < o then
      (match mp.1.min_index with
       | some mi =>
         if actual_index < mi then
           [rpoMinViolation c base_product_id mp.2 o mi actual_index]
         else []
       | none => []) ++
      (match mp.1.max_index with
       | some ma =>
         if ma < actual_index then
           [rpoMaxViolation c base_product_id mp.2 o ma actual_index]
         else []
       | none => [])
    else []

/-- `RelativePriceOrderConstraint.check_violations` (lines 37-130): an
empty merge yields no violations; a group whose merge has no order-1 row
logs a warning and yields no violations; a non-positive base value logs a
warning and yields no violations; otherwise every merged row is checked
against the first order-1 row's value. -/
def checkRelativePriceOrderViolations (c : RelativePriceOrderConstraintObj)
    (dfp : List ProductRow) : List Violation :=
  let df_merged := rpoMerged c dfp
  if df_merged = [] then []
  else
    match df_merged.find? (fun mp => mp.1.order == some 1) with
    | none => []
    | some mpb =>
      let base_price := rpoValue c mpb.2
      let base_product_id := mpb.2.product_id
      if base_price ≤ 0 then []
      else df_merged.flatMap (rpoRowCheck c base_product_id base_price)

/-- Concrete group and catalog used to witness the check theorem: the base
product sits exactly at index 100 and the order-2 product at index 105,
below its configured `min_index` of 110. -/
def rpoDemoC : RelativePriceOrderConstraintObj :=
  mkRelativePriceOrderConstraint "g1"
    [{ group_id := "g1", product_id := "b", order := some 1,
       min_index := none, max_index := none },
     { group_id := "g1", product_id := "p", order := some 2,
       min_index := some 110, max_index := some 150 }] false

def rpoDemoP : List ProductRow :=
  [{ product_id := "b", price := 10, unit_price := 10 },
   { product_id := "p", price := 21/2, unit_price := 21/2 }]

/-- The base merged row of the demo group. -/
def rpoDemoMB : MemberRow × ProductRow :=
  ({ group_id := "g1", product_id := "b", order := some 1,
     min_index := none, max_index := none },
   { product_id := "b", price := 10, unit_price := 10 })

/-- The order-2 merged row of the demo group. -/
def rpoDemoM2 : MemberRow × ProductRow :=
  ({ group_id := "g1", product_id := "p", order := some 2,
     min_index := some 110, max_index := some 150 },
   { product_id := "p", price := 21/2, unit_price := 21/2 })

/-! ## Composite data bundle (`src/data/local_loader.py` lines 255-327,
`src/data/loader.py` lines 99-163 — identical algorithm) -/

/-- `get_products`: all products when the id list is falsy (absent or
empty), otherwise the catalog rows whose id is in the list. -/
def getProducts (catalog : List ProductRow) (product_ids : Option (List String)) :
    List ProductRow :=
  match product_ids with
  | none => catalog
  | some ids =>
    if ids = [] then catalog
    else catalog.filter (fun p => ids.contains p.product_id)

/-- `relevant_groups`: ids of groups that include at least one requested
product (line 296 of local_loader.py / line 140 of loader.py). -/
def relevantGroupsOf (members : List MemberRow) (product_ids : List String) : List String :=
  pdUnique ((members.filter (fun m => product_ids.contains m.product_id)).map
    (fun m => m.group_id))

/-- `df_all_group_members`: memberships restricted to relevant groups. -/
def allGroupMembersOf (members : List MemberRow) (product_ids : List String) :
    List MemberRow :=
  members.filter (fun m => (relevantGroupsOf members product_ids).contains m.group_id)

/-- `additional_product_ids`: ids introduced by the group expansion that
were not in the original request. -/
def additionalProductIdsOf (members : List MemberRow) (product_ids : List String) :
    List String :=
  pdUnique (((allGroupMembersOf members product_ids).filter
    (fun m => !(product_ids.contains m.product_id))).map (fun m => m.product_id))

/-- `get_product_group_data(product_ids)`: fetch requested products (three
empty tables when none found); fetch all groups (two empty tables when
none); fetch all memberships (empty membership table when none); restrict
memberships to groups containing a requested id, pull in spillover
products of those groups, and restrict the groups table likewise. -/
def getProductGroupData (catalog : List ProductRow) (groups : List GroupRow)
    (members : List MemberRow) (product_ids : List String) :
    List ProductRow × List GroupRow × List MemberRow :=
  let df_products := getProducts catalog (some product_ids)
  if df_products = [] then ([], [], [])
  else if groups = [] then (df_products, [], [])
  else if members = [] then (df_products, groups, [])
  else
    let df_products2 :=
      if additionalProductIdsOf members product_ids = [] then df_products
      else df_products ++
        getProducts catalog (some (additionalProductIdsOf members product_ids))
    (df_products2,
     groups.filter (fun g => (relevantGroupsOf members product_ids).contains g.group_id),
     allGroupMembersOf members product_ids)

/-- The requested products present in the catalog (specification wording). -/
def requestedFound (catalog : List ProductRow) (ids : List String) : List ProductRow :=
  catalog.filter (fun p => ids.contains p.product_id)

/-- Whether a group contains at least one requested product
(specification wording). -/
def groupHasRequested (members : List MemberRow) (ids : List String) (gid : String) : Bool :=
  members.any (fun m => m.group_id == gid && ids.contains m.product_id)

/-- The spillover products: catalog products outside the request that
belong to a group containing a requested product (specification wording). -/
def spilloverProducts (catalog : List ProductRow) (members : List MemberRow)
    (ids : List String) : List ProductRow :=
  catalog.filter (fun p => !(ids.contains p.product_id) &&
    members.any (fun m => m.product_id == p.product_id &&
      groupHasRequested members ids m.group_id))

/-- Claim C2 exactly as stated: three empty tables when no requested
product is found; otherwise the membership table is exactly the rows whose
group contains a requested product, the groups table is restricted to
those groups, and the product table is the requested products extended
with the spillover products. -/
def productGroupDataClaim (catalog : List ProductRow) (groups : List GroupRow)
    (members : List MemberRow) (ids : List String) : Prop :=
  (requestedFound catalog ids = [] →
    getProductGroupData catalog groups members ids = ([], [], [])) ∧
  (requestedFound catalog ids ≠ [] →
    (getProductGroupData catalog groups members ids).2.2 =
        members.filter (fun m => groupHasRequested members ids m.group_id) ∧
      (getProductGroupData catalog groups members ids).2.1 =
        groups.filter (fun g => groupHasRequested members ids g.group_id) ∧
      (getProductGroupData catalog groups members ids).1 =
        requestedFound catalog ids ++ spilloverProducts catalog members ids)

/-! ## Linear-program decision variables
(`src/core/optimization/engine.py` lines 355-407) -/

/-- The scope expansion of `_run_optimization_model` (lines 358-372): the
requested products plus every product sharing a group with one of them,
as a first-occurrence id list (the Python `set` is unordered; only
membership matters downstream). -/
def expandScope (members : List MemberRow) (scope : List String) : List String :=
  pdUnique (scope ++ (members.filter (fun m => members.any (fun m2 =>
    m2.group_id == m.group_id && scope.contains m2.product_id))).map
    (fun m => m.product_id))

/-- `df_products.loc[df_products["product_id"] == pid, "price"].iloc[0]`:
the first matching row's price; `none` models the `IndexError` raised
when the product is absent. -/
def currentPriceOf (products : List ProductRow) (pid : String) : Option ℚ :=
  (products.find? (fun p => p.product_id == pid)).map (fun p => p.price)

/-- Collect an optional value per element, failing if any fails (a Python
loop whose body may raise). -/
def optionTraverse {α β : Type} (f : α → Option β) : List α → Option (List β)
  | [] => some []
  | a :: as =>
    match f a, optionTraverse f as with
    | some b, some bs => some (b :: bs)
    | _, _ => none

/-- `config.get("price_change.min_pct", -10)` read as a number. -/
def cfgPriceChangeMinPct (root : ConfigVal) : Option ℚ :=
  match configGet root "price_change.min_pct" (.num (-10)) with
  | .num q => some q
  | _ => none

/-- `config.get("price_change.max_pct", 10)` read as a number. -/
def cfgPriceChangeMaxPct (root : ConfigVal) : Option ℚ :=
  match configGet root "price_change.max_pct" (.num 10) with
  | .num q => some q
  | _ => none

/-- The decision-variable construction (lines 374-407): for every product
of the expanded scope, a `(pid, lowBound, upBound)` triple; requested
products get `[max(0.01, price*(1+min_pct/100)), price*(1+max_pct/100)]`,
group-mates outside the request are pinned to their current price. -/
def buildPriceVars (root : ConfigVal) (products : List ProductRow)
    (members : List MemberRow) (scope : List String) :
    Option (List (String × ℚ × ℚ)) :=
  match cfgPriceChangeMinPct root, cfgPriceChangeMaxPct root with
  | some minPct, some maxPct =>
    let min_pct_change := minPct / 100
    let max_pct_change := maxPct / 100
    optionTraverse (fun pid =>
      (currentPriceOf products pid).map (fun current_price =>
        if scope.contains pid then
          (pid, max (1/100) (current_price * (1 + min_pct_change)),
            current_price * (1 + max_pct_change))
        else (pid, current_price, current_price)))
      (expandScope members scope)
  | _, _ => none

/-- Demo catalog for the variable-bounds witness. -/
def lpDemoProducts : List ProductRow :=
  [{ product_id := "p1", price := 10, unit_price := 10 },
   { product_id := "p2", price := 20, unit_price := 20 }]

/-- Demo memberships: `p2` shares group `g1` with the requested `p1`. -/
def lpDemoMembers : List MemberRow :=
  [{ group_id := "g1", product_id := "p1", order := none,
     min_index := none, max_index := none },
   { group_id := "g1", product_id := "p2", order := none,
     min_index := none, max_index := none }]

end PEEng

/-! # Theorems -/

namespace PEEng

theorem mem_pdUnique_go {a : String} :
    ∀ (l seen : List String), a ∈ pdUnique.go l seen ↔ a ∈ l ∧ a ∉ seen
  | [], seen => by simp [pdUnique.go]
  | x :: xs, seen => by
    rw [pdUnique.go]
    by_cases hseen : seen.contains x
    · rw [if_pos hseen, mem_pdUnique_go xs seen]
      have hxseen : x ∈ seen := by
        simpa using hseen
      constructor
      · rintro ⟨hxs, hns⟩
        exact ⟨List.mem_cons_of_mem _ hxs, hns⟩
      · rintro ⟨hmem, hns⟩
        rcases List.mem_cons.mp hmem with h | h
        · exact absurd (h ▸ hxseen) hns
        · exact ⟨h, hns⟩
    · rw [if_neg hseen]
      have hxseen : x ∉ seen := by
        simpa using hseen
      by_cases hax : a = x
      · subst hax
        simp [hxseen]
      · simp only [List.mem_cons, hax, false_or]
        rw [mem_pdUnique_go xs (x :: seen)]
        simp [hax]

theorem mem_pdUnique {a : String} {l : List String} : a ∈ pdUnique l ↔ a ∈ l := by
  rw [pdUnique, mem_pdUnique_go]
  simp

theorem configGet_eq_stored_getD
    (root : ConfigVal) (key : String) (default : ConfigVal) :
    configGet root key default = (storedAtPath root (pySplitDot key)).getD default := by
  unfold configGet
  generalize pySplitDot key = segs
  induction segs generalizing root with
  | nil => simp [configGetSegs, storedAtPath]
  | cons k ks ih =>
    cases root with
    | num q => simp [configGetSegs, storedAtPath]
    | str s => simp [configGetSegs, storedAtPath]
    | boolean b => simp [configGetSegs, storedAtPath]
    | dict entries =>
      simp only [configGetSegs, storedAtPath]
      cases h : dictLookup entries k with
      | none => simp
      | some v => simpa using ih v

theorem snapFold_mem (price : ℚ) :
    ∀ (xs : List ℚ) (x : ℚ),
      xs.foldl (fun best l => if |l - price| < |best - price| then l else best) x ∈ x :: xs
  | [], x => by simp
  | y :: ys, x => by
    simp only [List.foldl_cons]
    by_cases h : |y - price| < |x - price|
    · simp only [h, if_true]
      have := snapFold_mem price ys y
      rcases List.mem_cons.mp this with h' | h'
      · simp [h']
      · simp [List.mem_cons, h']
    · simp only [h, if_false]
      have := snapFold_mem price ys x
      rcases List.mem_cons.mp this with h' | h'
      · simp [h']
      · simp [List.mem_cons, h']

theorem snapFold_min (price : ℚ) :
    ∀ (xs : List ℚ) (x : ℚ) (y : ℚ), y ∈ x :: xs →
      |xs.foldl (fun best l => if |l - price| < |best - price| then l else best) x - price|
        ≤ |y - price|
  | [], x, y, hy => by
    rcases List.mem_cons.mp hy with h | h
    · subst h; simp
    · simp at h
  | z :: zs, x, y, hy => by
    simp only [List.foldl_cons]
    by_cases h : |z - price| < |x - price|
    · simp only [h, if_true]
      rcases List.mem_cons.mp hy with h' | h'
      · subst h'
        exact le_trans (snapFold_min price zs z z (by simp)) (le_of_lt h)
      · exact snapFold_min price zs z y h'
    · simp only [h, if_false]
      rcases List.mem_cons.mp hy with h' | h'
      · rw [h']
        exact snapFold_min price zs x x (by simp)
      · rcases List.mem_cons.mp h' with h'' | h''
        · rw [h'']
          exact le_trans (snapFold_min price zs x x (by simp)) (le_of_not_lt h)
        · exact snapFold_min price zs x y (by simp [h''])

theorem findNearest_mem {ladder : List ℚ} (h : ladder ≠ []) (price : ℚ) :
    findNearestPriceLadder ladder price ∈ ladder := by
  match ladder with
  | [] => exact absurd rfl h
  | x :: xs => exact snapFold_mem price xs x

theorem findNearest_fixed {ladder : List ℚ} {x : ℚ} (hx : x ∈ ladder) :
    findNearestPriceLadder ladder x = x := by
  match ladder with
  | [] => simp at hx
  | y :: ys =>
    have hmin := snapFold_min x ys y x hx
    simp only [sub_self, abs_zero] at hmin
    have : |ys.foldl (fun best l => if |l - x| < |best - x| then l else best) y - x| = 0 :=
      le_antisymm hmin (abs_nonneg _)
    have := abs_eq_zero.mp this
    have := sub_eq_zero.mp this
    simpa [findNearestPriceLadder] using this

/-- C8: `Config.get` performs dotted-path lookup over the layered
configuration: it returns the value stored at the key path, and returns
the supplied default whenever any path segment is absent or the value
reached before the final segment is not a mapping. -/
theorem config_get_is_stored_path_lookup
    (root : ConfigVal) (key : String) (default : ConfigVal) :
    configGet root key default = (storedAtPath root (pySplitDot key)).getD default :=
  configGet_eq_stored_getD root key default

/-- C10: for a non-empty price ladder, the snapped price is an element of
the ladder, and snapping an already-snapped price returns it unchanged. -/
theorem snap_mem_and_idempotent (ladder : List ℚ) (price : ℚ) (h : ladder ≠ []) :
    findNearestPriceLadder ladder price ∈ ladder ∧
      findNearestPriceLadder ladder (findNearestPriceLadder ladder price) =
        findNearestPriceLadder ladder price := by
  refine ⟨findNearest_mem h price, ?_⟩
  exact findNearest_fixed (findNearest_mem h price)

/-- Witness for C10 at the x.99 ladder prefix and a concrete price. -/
theorem snap_mem_and_idempotent_witness :
    ([(99 : ℚ)/100, 199/100, 299/100] ≠ []) ∧
      (findNearestPriceLadder [(99 : ℚ)/100, 199/100, 299/100] (5/2) ∈
          [(99 : ℚ)/100, 199/100, 299/100] ∧
        findNearestPriceLadder [(99 : ℚ)/100, 199/100, 299/100]
            (findNearestPriceLadder [(99 : ℚ)/100, 199/100, 299/100] (5/2)) =
          findNearestPriceLadder [(99 : ℚ)/100, 199/100, 299/100] (5/2)) :=
  ⟨by decide, snap_mem_and_idempotent [(99 : ℚ)/100, 199/100, 299/100] (5/2) (by decide)⟩

/-- C1 (code bug): because `"/"` is in `public_paths` and matching is by
`startswith`, every request path is treated as public, so the API-key
middleware forwards every request — a protected path with a missing or
wrong `X-API-Key` header is never answered with 401. -/
theorem api_key_middleware_never_rejects :
    isPublicPath "/api/optimization" = true ∧
      validateApiKey "/api/optimization" none "default_api_key" = .forwarded ∧
      validateApiKey "/api/violations" (some "wrong_key") "default_api_key" = .forwarded := by
  refine ⟨by decide, by decide, by decide⟩

/-- C6: with ladder type `"x.99"` the generated ladder is exactly
`0.99, 1.99, …, (max_price − 1).99`; with any other type it enumerates
every cent from `0.01` up to `max_price` inclusive; and `max_price`
defaults to `2000` when not configured. -/
theorem price_ladder_generation (root : ConfigVal) :
    (∀ M : ℕ, cfgMaxPrice root = some (M : ℚ) → ladderTypeIsX99 root = true →
      generatePriceLadderFromConfig root =
        some ((List.range M).map (fun i : ℕ => (i : ℚ) + 99/100))) ∧
    (∀ maxPrice : ℚ, cfgMaxPrice root = some maxPrice → 0 ≤ maxPrice →
      ladderTypeIsX99 root = false →
      ∃ L, generatePriceLadderFromConfig root = some L ∧
        ∀ q : ℚ, q ∈ L ↔ ∃ i : ℕ, 1 ≤ i ∧ (i : ℚ)/100 ≤ maxPrice ∧ q = (i : ℚ)/100) ∧
    (storedAtPath root (pySplitDot "price_ladder.max_price") = none →
      cfgMaxPrice root = some 2000) := by
  refine ⟨?_, ?_, ?_⟩
  · intro M hM hT
    unfold generatePriceLadderFromConfig
    rw [hM]
    simp only [Option.map_some', hT, if_true]
    have htr : (pyTrunc ((M : ℕ) : ℚ)).toNat = M := by
      unfold pyTrunc
      rw [if_pos (by exact_mod_cast Nat.zero_le M), Int.floor_natCast, Int.toNat_natCast]
    rw [htr]
  · intro maxPrice hM h0 hT
    refine ⟨(List.range' 1 (pyTrunc (maxPrice * 100)).toNat).map (fun i : ℕ => (i : ℚ) / 100),
      ?_, ?_⟩
    · unfold generatePriceLadderFromConfig
      rw [hM]
      simp [hT]
    · intro q
      have hn : pyTrunc (maxPrice * 100) = ⌊maxPrice * 100⌋ := by
        unfold pyTrunc
        rw [if_pos (by positivity)]
      have hfl : (0 : ℤ) ≤ ⌊maxPrice * 100⌋ := Int.floor_nonneg.mpr (by positivity)
      constructor
      · intro hq
        rcases List.mem_map.mp hq with ⟨i, hi, rfl⟩
        rw [List.mem_range'_1] at hi
        refine ⟨i, hi.1, ?_, rfl⟩
        have hin : i ≤ (pyTrunc (maxPrice * 100)).toNat := by omega
        rw [hn] at hin
        have hiz : (i : ℤ) ≤ ⌊maxPrice * 100⌋ := (Int.le_toNat hfl).mp hin
        have hiq : (i : ℚ) ≤ maxPrice * 100 := by
          exact_mod_cast Int.le_floor.mp hiz
        rw [div_le_iff (by norm_num : (0:ℚ) < 100)]
        exact hiq
      · rintro ⟨i, h1, hle, rfl⟩
        refine List.mem_map.mpr ⟨i, ?_, rfl⟩
        rw [List.mem_range'_1]
        refine ⟨h1, ?_⟩
        have hiq : (i : ℚ) ≤ maxPrice * 100 :=
          (div_le_iff (by norm_num : (0:ℚ) < 100)).mp hle
        have hiz : (i : ℤ) ≤ ⌊maxPrice * 100⌋ := Int.le_floor.mpr (by exact_mod_cast hiq)
        have := (Int.le_toNat hfl).mpr hiz
        rw [← hn] at this
        omega
  · intro h
    unfold cfgMaxPrice
    rw [configGet_eq_stored_getD, h]
    rfl

/-- Witness for C6: a concrete x.99 configuration with `max_price = 3`,
and the default when `max_price` is absent. -/
theorem price_ladder_generation_witness :
    (cfgMaxPrice cfgX99Demo = some ((3 : ℕ) : ℚ) ∧ ladderTypeIsX99 cfgX99Demo = true ∧
      generatePriceLadderFromConfig cfgX99Demo =
        some ((List.range 3).map (fun i : ℕ => (i : ℚ) + 99/100))) ∧
    (storedAtPath (ConfigVal.dict []) (pySplitDot "price_ladder.max_price") = none ∧
      cfgMaxPrice (ConfigVal.dict []) = some 2000) :=
  ⟨⟨by decide, by decide,
    (price_ladder_generation cfgX99Demo).1 3 (by decide) (by decide)⟩,
   ⟨rfl, (price_ladder_generation (ConfigVal.dict [])).2.2 rfl⟩⟩

/-- C7 (code bug): `EqualPriceConstraint.__init__` does not call
`super().__init__()`, so its instances never receive the `_priority` /
`_relaxable` slots and the metadata property reads fail, while the base
initializer does install the documented defaults (medium priority,
relaxable). -/
theorem equal_price_metadata_unset :
    readPriority (mkEqualPriceConstraint "g1" ["p1", "p2"]).attrs = none ∧
      readRelaxable (mkEqualPriceConstraint "g1" ["p1", "p2"]).attrs = none ∧
      readPriority constraintBaseInit = some 3 ∧
      readRelaxable constraintBaseInit = some true :=
  ⟨rfl, rfl, rfl, rfl⟩

/-- C9: `ViolationDetector.detect_violations` treats an empty product-id
list exactly like passing no filter: for every detector state and every
constraint-type filter, the result with `product_ids = []` equals the
result with `product_ids = None`, so an empty list never restricts the
scope to zero products. -/
theorem detect_violations_empty_ids_like_none
    (d : ViolationDetectorObj) (cts : Option (List String)) :
    detectViolations d cts (some []) = detectViolations d cts none := rfl

/-- C5: when the initial violation check of hygiene optimization finds no
violations, the engine returns immediately with success, the explanatory
message and an empty optimized-price list, and the result does not depend
on the linear-program model run at all (no solve is attempted). -/
theorem hygiene_early_return_without_solve
    (d : ViolationDetectorObj) (runA runB : List String → EngineRunResult)
    (scope : List String)
    (h : detectViolations d none (some scope) = []) :
    runHygieneOptimization d runA scope =
      { success := true, mode := some "hygiene_optimization",
        message := some "No violations found. No price changes needed.",
        status := none, error := none,
        optimized_prices := [], violations := [],
        summary := getViolationsSummary [] } ∧
      runHygieneOptimization d runA scope = runHygieneOptimization d runB scope := by
  unfold runHygieneOptimization
  rw [h]
  exact ⟨rfl, rfl⟩

/-- Witness for C5: a detector with a product and no constraints detects
nothing, and the early return is identical under two different model
runs. -/
theorem hygiene_early_return_without_solve_witness :
    detectViolations detectorDemo none (some ["p1"]) = [] ∧
      (runHygieneOptimization detectorDemo (fun _ => demoRunResultA) ["p1"] =
        { success := true, mode := some "hygiene_optimization",
          message := some "No violations found. No price changes needed.",
          status := none, error := none,
          optimized_prices := [], violations := [],
          summary := getViolationsSummary [] } ∧
      runHygieneOptimization detectorDemo (fun _ => demoRunResultA) ["p1"] =
        runHygieneOptimization detectorDemo (fun _ => demoRunResultB) ["p1"]) :=
  ⟨rfl,
   hygiene_early_return_without_solve detectorDemo
     (fun _ => demoRunResultA) (fun _ => demoRunResultB) ["p1"] rfl⟩

theorem rpoRowCheck_field_conditions {c : RelativePriceOrderConstraintObj}
    {bid : String} {bp : ℚ} {mp : MemberRow × ProductRow} {v : Violation}
    (hv : v ∈ rpoRowCheck c bid bp mp) :
    (v.constraint_type = "relative_price_order_base" → rpoEps < |v.actual_value - 100|) ∧
    (v.constraint_type = "relative_price_order_min" → v.actual_value < v.expected_value) ∧
    (v.constraint_type = "relative_price_order_max" → v.expected_value < v.actual_value) := by
  unfold rpoRowCheck at hv
  simp only at hv
  split at hv
  · simp at hv
  · split at hv
    · split at hv
      · rename_i o horder h1 hcond
        simp only [List.mem_singleton] at hv
        subst hv
        refine ⟨fun _ => hcond, fun h => ?_, fun h => ?_⟩ <;> simp [rpoBaseViolation] at h
      · simp at hv
    · split at hv
      · rcases List.mem_append.mp hv with hv' | hv'
        · split at hv'
          · split at hv'
            · rename_i o horder h1 h2 mi hmi hcond
              simp only [List.mem_singleton] at hv'
              subst hv'
              refine ⟨fun h => ?_, fun _ => hcond, fun h => ?_⟩ <;> simp [rpoMinViolation] at h
            · simp at hv'
          · simp at hv'
        · split at hv'
          · split at hv'
            · rename_i o horder h1 h2 ma hma hcond
              simp only [List.mem_singleton] at hv'
              subst hv'
              refine ⟨fun h => ?_, fun h => ?_, fun _ => hcond⟩ <;> simp [rpoMaxViolation] at h
            · simp at hv'
          · simp at hv'
      · simp at hv

theorem rpoRowCheck_base_of {c : RelativePriceOrderConstraintObj} {bid : String} {bp : ℚ}
    {mp : MemberRow × ProductRow} (h1 : mp.1.order = some 1)
    (hcond : rpoEps < |rpoValue c mp.2 / bp * 100 - 100|) :
    rpoBaseViolation c bid mp.2 1 (rpoValue c mp.2 / bp * 100) ∈ rpoRowCheck c bid bp mp := by
  unfold rpoRowCheck
  rw [h1]
  simp [hcond]

theorem rpoRowCheck_min_of {c : RelativePriceOrderConstraintObj} {bid : String} {bp : ℚ}
    {mp : MemberRow × ProductRow} {o mi : ℚ} (horder : mp.1.order = some o) (ho : 1 < o)
    (hmin : mp.1.min_index = some mi) (hcond : rpoValue c mp.2 / bp * 100 < mi) :
    rpoMinViolation c bid mp.2 o mi (rpoValue c mp.2 / bp * 100) ∈ rpoRowCheck c bid bp mp := by
  unfold rpoRowCheck
  rw [horder]
  simp only [if_neg (ne_of_gt ho), if_pos ho, hmin, if_pos hcond]
  exact List.mem_append.mpr (Or.inl (List.mem_singleton.mpr rfl))

theorem rpoRowCheck_max_of {c : RelativePriceOrderConstraintObj} {bid : String} {bp : ℚ}
    {mp : MemberRow × ProductRow} {o ma : ℚ} (horder : mp.1.order = some o) (ho : 1 < o)
    (hmax : mp.1.max_index = some ma) (hcond : ma < rpoValue c mp.2 / bp * 100) :
    rpoMaxViolation c bid mp.2 o ma (rpoValue c mp.2 / bp * 100) ∈ rpoRowCheck c bid bp mp := by
  unfold rpoRowCheck
  rw [horder]
  simp only [if_neg (ne_of_gt ho), if_pos ho, hmax, if_pos hcond]
  exact List.mem_append.mpr (Or.inr (List.mem_singleton.mpr rfl))

theorem checkRPO_eq_flatMap {c : RelativePriceOrderConstraintObj} {dfp : List ProductRow}
    {mpb : MemberRow × ProductRow}
    (hbase : (rpoMerged c dfp).find? (fun mp => mp.1.order == some 1) = some mpb)
    (hpos : 0 < rpoValue c mpb.2) :
    checkRelativePriceOrderViolations c dfp =
      (rpoMerged c dfp).flatMap (rpoRowCheck c mpb.2.product_id (rpoValue c mpb.2)) := by
  have hne : rpoMerged c dfp ≠ [] := by
    intro h
    rw [h] at hbase
    simp [List.find?] at hbase
  unfold checkRelativePriceOrderViolations
  rw [if_neg hne, hbase]
  simp only [if_neg (not_le.mpr hpos)]

/-- C4: for the relative price-order check with
`actual_index = value / base_value * 100` (value being `unit_price` when
`use_price_per_unit` is set, `price` otherwise): a base-positive group
flags the order-1 member exactly when `|actual_index − 100| > 1e-6` and
each member of order above 1 exactly when the index is below a present
`min_index` and/or above a present `max_index`; a non-positive base value
or a group with no order-1 member yields an empty result instead of
raising. -/
theorem relative_price_order_check (c : RelativePriceOrderConstraintObj)
    (dfp : List ProductRow) :
    (∀ mpb, (rpoMerged c dfp).find? (fun mp => mp.1.order == some 1) = some mpb →
      ((0 < rpoValue c mpb.2 →
        (∀ mp ∈ rpoMerged c dfp, mp.1.order = some 1 →
          (rpoBaseViolation c mpb.2.product_id mp.2 1
              (rpoValue c mp.2 / rpoValue c mpb.2 * 100) ∈
                checkRelativePriceOrderViolations c dfp ↔
            rpoEps < |rpoValue c mp.2 / rpoValue c mpb.2 * 100 - 100|)) ∧
        (∀ mp ∈ rpoMerged c dfp, ∀ o mi, mp.1.order = some o → 1 < o →
          mp.1.min_index = some mi →
          (rpoMinViolation c mpb.2.product_id mp.2 o mi
              (rpoValue c mp.2 / rpoValue c mpb.2 * 100) ∈
                checkRelativePriceOrderViolations c dfp ↔
            rpoValue c mp.2 / rpoValue c mpb.2 * 100 < mi)) ∧
        (∀ mp ∈ rpoMerged c dfp, ∀ o ma, mp.1.order = some o → 1 < o →
          mp.1.max_index = some ma →
          (rpoMaxViolation c mpb.2.product_id mp.2 o ma
              (rpoValue c mp.2 / rpoValue c mpb.2 * 100) ∈
                checkRelativePriceOrderViolations c dfp ↔
            ma < rpoValue c mp.2 / rpoValue c mpb.2 * 100))) ∧
       (rpoValue c mpb.2 ≤ 0 → checkRelativePriceOrderViolations c dfp = []))) ∧
    ((rpoMerged c dfp).find? (fun mp => mp.1.order == some 1) = none →
      checkRelativePriceOrderViolations c dfp = []) := by
  constructor
  · intro mpb hbase
    have hne : rpoMerged c dfp ≠ [] := by
      intro h
      rw [h] at hbase
      simp [List.find?] at hbase
    constructor
    · intro hpos
      have hflat := checkRPO_eq_flatMap hbase hpos
      refine ⟨?_, ?_, ?_⟩
      · intro mp hmp h1
        rw [hflat]
        constructor
        · intro hvmem
          rcases List.mem_flatMap.mp hvmem with ⟨mp', hmp', hv'⟩
          have := (rpoRowCheck_field_conditions hv').1 rfl
          simpa [rpoBaseViolation] using this
        · intro hcond
          exact List.mem_flatMap.mpr ⟨mp, hmp, rpoRowCheck_base_of h1 hcond⟩
      · intro mp hmp o mi horder ho hmi
        rw [hflat]
        constructor
        · intro hvmem
          rcases List.mem_flatMap.mp hvmem with ⟨mp', hmp', hv'⟩
          have := (rpoRowCheck_field_conditions hv').2.1 rfl
          simpa [rpoMinViolation] using this
        · intro hcond
          exact List.mem_flatMap.mpr ⟨mp, hmp, rpoRowCheck_min_of horder ho hmi hcond⟩
      · intro mp hmp o ma horder ho hma
        rw [hflat]
        constructor
        · intro hvmem
          rcases List.mem_flatMap.mp hvmem with ⟨mp', hmp', hv'⟩
          have := (rpoRowCheck_field_conditions hv').2.2 rfl
          simpa [rpoMaxViolation] using this
        · intro hcond
          exact List.mem_flatMap.mpr ⟨mp, hmp, rpoRowCheck_max_of horder ho hma hcond⟩
    · intro hle
      unfold checkRelativePriceOrderViolations
      rw [if_neg hne, hbase]
      simp only [if_pos hle]
  · intro hnone
    unfold checkRelativePriceOrderViolations
    by_cases h : rpoMerged c dfp = []
    · simp [h]
    · rw [if_neg h, hnone]

/-- Witness for C4: in the demo group the order-2 product sits at index
105, below its `min_index` of 110, so its min violation is reported. -/
theorem rpoDemo_merged_eq :
    rpoMerged rpoDemoC rpoDemoP = [rpoDemoMB, rpoDemoM2] := rfl

/-- Witness for C4: in the demo group the order-2 product sits at index
105, below its `min_index` of 110, so its min violation is reported. -/
theorem relative_price_order_check_witness :
    (rpoMerged rpoDemoC rpoDemoP).find? (fun mp => mp.1.order == some 1) = some rpoDemoMB ∧
      (0 : ℚ) < rpoValue rpoDemoC rpoDemoMB.2 ∧
      rpoDemoM2 ∈ rpoMerged rpoDemoC rpoDemoP ∧
      (rpoMinViolation rpoDemoC rpoDemoMB.2.product_id rpoDemoM2.2 2 110
          (rpoValue rpoDemoC rpoDemoM2.2 / rpoValue rpoDemoC rpoDemoMB.2 * 100) ∈
            checkRelativePriceOrderViolations rpoDemoC rpoDemoP ↔
        rpoValue rpoDemoC rpoDemoM2.2 / rpoValue rpoDemoC rpoDemoMB.2 * 100 < 110) :=
  have hmem : rpoDemoM2 ∈ rpoMerged rpoDemoC rpoDemoP := by
    rw [rpoDemo_merged_eq]
    exact List.mem_cons_of_mem _ (List.mem_singleton.mpr rfl)
  ⟨by decide, by decide, hmem,
    (((relative_price_order_check rpoDemoC rpoDemoP).1 rpoDemoMB (by decide)).1
        (by decide)).2.1
      rpoDemoM2 hmem 2 110 (by decide) (by norm_num) (by decide)⟩

theorem list_contains_iff_mem {α : Type} [BEq α] [LawfulBEq α] {l : List α} {a : α} :
    l.contains a = true ↔ a ∈ l := by
  simp [List.contains, List.elem_iff]

theorem groupHasRequested_iff {members : List MemberRow} {ids : List String} {gid : String} :
    groupHasRequested members ids gid = true ↔
      ∃ m ∈ members, m.group_id = gid ∧ ids.contains m.product_id = true := by
  unfold groupHasRequested
  simp only [List.any_eq_true, Bool.and_eq_true, beq_iff_eq]

theorem relevantGroups_contains_eq (members : List MemberRow) (ids : List String)
    (gid : String) :
    (relevantGroupsOf members ids).contains gid = groupHasRequested members ids gid := by
  rw [Bool.eq_iff_iff, relevantGroupsOf]
  rw [show ((pdUnique ((members.filter (fun m => ids.contains m.product_id)).map
      (fun m => m.group_id))).contains gid ↔
      gid ∈ pdUnique ((members.filter (fun m => ids.contains m.product_id)).map
        (fun m => m.group_id))) from list_contains_iff_mem]
  rw [mem_pdUnique]
  rw [show (groupHasRequested members ids gid ↔ groupHasRequested members ids gid = true)
    from Iff.rfl]
  rw [groupHasRequested_iff]
  simp only [List.mem_map, List.mem_filter]
  constructor
  · rintro ⟨m, ⟨hm, hc⟩, rfl⟩
    exact ⟨m, hm, rfl, hc⟩
  · rintro ⟨m, hm, rfl, hc⟩
    exact ⟨m, ⟨hm, hc⟩, rfl⟩

theorem additional_contains_eq (members : List MemberRow) (ids : List String)
    (pid : String) :
    (additionalProductIdsOf members ids).contains pid =
      (!(ids.contains pid) && members.any (fun m => m.product_id == pid &&
        groupHasRequested members ids m.group_id)) := by
  rw [Bool.eq_iff_iff, additionalProductIdsOf]
  rw [show ((pdUnique (((allGroupMembersOf members ids).filter
      (fun m => !(ids.contains m.product_id))).map (fun m => m.product_id))).contains pid ↔
      pid ∈ pdUnique (((allGroupMembersOf members ids).filter
        (fun m => !(ids.contains m.product_id))).map (fun m => m.product_id)))
    from list_contains_iff_mem]
  rw [mem_pdUnique]
  unfold allGroupMembersOf
  simp only [List.mem_map, List.mem_filter, Bool.and_eq_true, Bool.not_eq_true',
    List.any_eq_true, beq_iff_eq, relevantGroups_contains_eq]
  constructor
  · rintro ⟨m, ⟨⟨hm, hrel⟩, hnc⟩, rfl⟩
    exact ⟨hnc, m, hm, rfl, hrel⟩
  · rintro ⟨hnc, m, hm, rfl, hrel⟩
    exact ⟨m, ⟨⟨hm, hrel⟩, hnc⟩, rfl⟩

theorem spillover_eq_filter_additional (catalog : List ProductRow)
    (members : List MemberRow) (ids : List String) :
    spilloverProducts catalog members ids =
      catalog.filter (fun p => (additionalProductIdsOf members ids).contains p.product_id) := by
  unfold spilloverProducts
  exact (List.filter_congr (fun p _ => additional_contains_eq members ids p.product_id)).symm

/-- Counterexample to C2 as stated: one requested product is found, the
groups table has one group, and the membership table is empty; the code
returns the full groups table while the claim demands it restricted to
the (empty) set of groups containing a requested product. -/
theorem product_group_data_claim_counterexample :
    ¬ productGroupDataClaim [{ product_id := "p1", price := 1, unit_price := 1 }]
        [{ group_id := "g1", group_type := "equal", use_price_per_unit := false }]
        [] ["p1"] := by
  intro h
  have h2 := (h.2 (by decide)).2.1
  exact absurd h2 (by decide)

/-- C2 (amended): for a non-empty request list — when no requested product
is found, three empty tables; when the groups table is empty, the found
products with two empty tables; when the membership table is empty, the
found products, the full groups table and an empty membership table;
otherwise the membership table is exactly the rows whose group contains a
requested id, the groups table is restricted to those groups, and the
product table is the found requested products extended with the spillover
products. -/
theorem product_group_data_characterization (catalog : List ProductRow)
    (groups : List GroupRow) (members : List MemberRow) (ids : List String)
    (hids : ids ≠ []) :
    (requestedFound catalog ids = [] →
      getProductGroupData catalog groups members ids = ([], [], [])) ∧
    (requestedFound catalog ids ≠ [] → groups = [] →
      getProductGroupData catalog groups members ids =
        (requestedFound catalog ids, [], [])) ∧
    (requestedFound catalog ids ≠ [] → groups ≠ [] → members = [] →
      getProductGroupData catalog groups members ids =
        (requestedFound catalog ids, groups, [])) ∧
    (requestedFound catalog ids ≠ [] → groups ≠ [] → members ≠ [] →
      (getProductGroupData catalog groups members ids).2.2 =
          members.filter (fun m => groupHasRequested members ids m.group_id) ∧
        (getProductGroupData catalog groups members ids).2.1 =
          groups.filter (fun g => groupHasRequested members ids g.group_id) ∧
        (getProductGroupData catalog groups members ids).1 =
          requestedFound catalog ids ++ spilloverProducts catalog members ids) := by
  have hfp : getProducts catalog (some ids) = requestedFound catalog ids := by
    simp [getProducts, requestedFound, hids]
  refine ⟨?_, ?_, ?_, ?_⟩
  · intro hempty
    unfold getProductGroupData
    rw [hfp, if_pos hempty]
  · intro hne hg
    unfold getProductGroupData
    rw [hfp, if_neg hne, hg]
    simp
  · intro hne hg hm
    unfold getProductGroupData
    rw [hfp, if_neg hne, if_neg hg, hm]
    simp [hg]
  · intro hne hg hm
    have hmain : getProductGroupData catalog groups members ids =
        ((if additionalProductIdsOf members ids = [] then requestedFound catalog ids
          else requestedFound catalog ids ++
            getProducts catalog (some (additionalProductIdsOf members ids))),
         groups.filter (fun g => (relevantGroupsOf members ids).contains g.group_id),
         allGroupMembersOf members ids) := by
      unfold getProductGroupData
      rw [hfp, if_neg hne, if_neg hg, if_neg hm]
    rw [hmain]
    refine ⟨?_, ?_, ?_⟩
    · exact List.filter_congr (fun m _ => relevantGroups_contains_eq members ids m.group_id)
    · exact List.filter_congr (fun g _ => relevantGroups_contains_eq members ids g.group_id)
    · by_cases hadd : additionalProductIdsOf members ids = []
      · rw [if_pos hadd, spillover_eq_filter_additional, hadd]
        simp
      · rw [if_neg hadd, spillover_eq_filter_additional]
        simp [getProducts, hadd]

/-- Witness for C2 (amended): a two-product catalog where requesting one
product of a group pulls in its group-mate as spillover. -/
theorem product_group_data_characterization_witness :
    ((["p1"] : List String) ≠ []) ∧
      (requestedFound
          [{ product_id := "p1", price := 1, unit_price := 1 },
           { product_id := "p2", price := 2, unit_price := 2 }] ["p1"] ≠ [] →
        ([{ group_id := "g1", group_type := "equal", use_price_per_unit := false }] :
          List GroupRow) ≠ [] →
        ([{ group_id := "g1", product_id := "p1", order := none,
            min_index := none, max_index := none },
          { group_id := "g1", product_id := "p2", order := none,
            min_index := none, max_index := none }] : List MemberRow) ≠ [] →
        (getProductGroupData
            [{ product_id := "p1", price := 1, unit_price := 1 },
             { product_id := "p2", price := 2, unit_price := 2 }]
            [{ group_id := "g1", group_type := "equal", use_price_per_unit := false }]
            [{ group_id := "g1", product_id := "p1", order := none,
               min_index := none, max_index := none },
             { group_id := "g1", product_id := "p2", order := none,
               min_index := none, max_index := none }] ["p1"]).2.2 =
            List.filter (fun m => groupHasRequested
              [{ group_id := "g1", product_id := "p1", order := none,
                 min_index := none, max_index := none },
               { group_id := "g1", product_id := "p2", order := none,
                 min_index := none, max_index := none }] ["p1"] m.group_id)
              [{ group_id := "g1", product_id := "p1", order := none,
                 min_index := none, max_index := none },
               { group_id := "g1", product_id := "p2", order := none,
                 min_index := none, max_index := none }] ∧
          (getProductGroupData
            [{ product_id := "p1", price := 1, unit_price := 1 },
             { product_id := "p2", price := 2, unit_price := 2 }]
            [{ group_id := "g1", group_type := "equal", use_price_per_unit := false }]
            [{ group_id := "g1", product_id := "p1", order := none,
               min_index := none, max_index := none },
             { group_id := "g1", product_id := "p2", order := none,
               min_index := none, max_index := none }] ["p1"]).2.1 =
            List.filter (fun g => groupHasRequested
              [{ group_id := "g1", product_id := "p1", order := none,
                 min_index := none, max_index := none },
               { group_id := "g1", product_id := "p2", order := none,
                 min_index := none, max_index := none }] ["p1"] g.group_id)
              [{ group_id := "g1", group_type := "equal", use_price_per_unit := false }] ∧
          (getProductGroupData
            [{ product_id := "p1", price := 1, unit_price := 1 },
             { product_id := "p2", price := 2, unit_price := 2 }]
            [{ group_id := "g1", group_type := "equal", use_price_per_unit := false }]
            [{ group_id := "g1", product_id := "p1", order := none,
               min_index := none, max_index := none },
             { group_id := "g1", product_id := "p2", order := none,
               min_index := none, max_index := none }] ["p1"]).1 =
            requestedFound
              [{ product_id := "p1", price := 1, unit_price := 1 },
               { product_id := "p2", price := 2, unit_price := 2 }] ["p1"] ++
            spilloverProducts
              [{ product_id := "p1", price := 1, unit_price := 1 },
               { product_id := "p2", price := 2, unit_price := 2 }]
              [{ group_id := "g1", product_id := "p1", order := none,
                 min_index := none, max_index := none },
               { group_id := "g1", product_id := "p2", order := none,
                 min_index := none, max_index := none }] ["p1"]) :=
  ⟨by decide,
   (product_group_data_characterization
      [{ product_id := "p1", price := 1, unit_price := 1 },
       { product_id := "p2", price := 2, unit_price := 2 }]
      [{ group_id := "g1", group_type := "equal", use_price_per_unit := false }]
      [{ group_id := "g1", product_id := "p1", order := none,
         min_index := none, max_index := none },
       { group_id := "g1", product_id := "p2", order := none,
         min_index := none, max_index := none }] ["p1"] (by decide)).2.2.2⟩

theorem optionTraverse_mem {α β : Type} (f : α → Option β) :
    ∀ {l : List α} {res : List β}, optionTraverse f l = some res →
      (∀ b ∈ res, ∃ a ∈ l, f a = some b) ∧ (∀ a ∈ l, ∃ b ∈ res, f a = some b)
  | [], res => by
    intro h
    simp only [optionTraverse, Option.some.injEq] at h
    subst h
    simp
  | a :: as, res => by
    intro h
    rw [optionTraverse] at h
    cases hfa : f a with
    | none => rw [hfa] at h; simp at h
    | some b =>
      cases hrest : optionTraverse f as with
      | none => rw [hfa, hrest] at h; simp at h
      | some bs =>
        rw [hfa, hrest] at h
        simp only [Option.some.injEq] at h
        subst h
        have ih := optionTraverse_mem f hrest
        constructor
        · intro b' hb'
          rcases List.mem_cons.mp hb' with hb' | hb'
          · exact ⟨a, List.mem_cons_self _ _, hb' ▸ hfa⟩
          · rcases ih.1 b' hb' with ⟨a', ha', hfa'⟩
            exact ⟨a', List.mem_cons_of_mem _ ha', hfa'⟩
        · intro a' ha'
          rcases List.mem_cons.mp ha' with ha' | ha'
          · exact ⟨b, List.mem_cons_self _ _, ha' ▸ hfa⟩
          · rcases ih.2 a' ha' with ⟨b', hb', hfb'⟩
            exact ⟨b', List.mem_cons_of_mem _ hb', hfb'⟩

/-- C3: every variable triple built for the linear program carries the
claimed bounds — products in the requested scope get
`[max(0.01, price·(1+min_pct/100)), price·(1+max_pct/100)]` while
group-mates outside the scope are pinned at their current price; every
scope product with a known price yields a variable; and the percentage
bounds default to −10 / +10 when unconfigured. -/
theorem lp_variable_bounds (root : ConfigVal) (products : List ProductRow)
    (members : List MemberRow) (scope : List String) (vars : List (String × ℚ × ℚ))
    (hv : buildPriceVars root products members scope = some vars) :
    ∃ minPct maxPct,
      cfgPriceChangeMinPct root = some minPct ∧
      cfgPriceChangeMaxPct root = some maxPct ∧
      (storedAtPath root (pySplitDot "price_change.min_pct") = none → minPct = -10) ∧
      (storedAtPath root (pySplitDot "price_change.max_pct") = none → maxPct = 10) ∧
      (∀ pid lo hi, (pid, lo, hi) ∈ vars →
        ∃ cp, currentPriceOf products pid = some cp ∧
          ((scope.contains pid = true ∧
              lo = max (1/100) (cp * (1 + minPct / 100)) ∧
              hi = cp * (1 + maxPct / 100)) ∨
           (scope.contains pid = false ∧ lo = cp ∧ hi = cp))) ∧
      (∀ pid ∈ scope, ∀ cp, currentPriceOf products pid = some cp →
        ∃ lo hi, (pid, lo, hi) ∈ vars) := by
  unfold buildPriceVars at hv
  cases hmin : cfgPriceChangeMinPct root with
  | none => rw [hmin] at hv; simp at hv
  | some minPct =>
  cases hmax : cfgPriceChangeMaxPct root with
  | none => rw [hmin, hmax] at hv; simp at hv
  | some maxPct =>
    rw [hmin, hmax] at hv
    simp only at hv
    refine ⟨minPct, maxPct, rfl, rfl, ?_, ?_, ?_, ?_⟩
    · intro habs
      have hd : cfgPriceChangeMinPct root = some (-10) := by
        unfold cfgPriceChangeMinPct
        rw [configGet_eq_stored_getD, habs]
        rfl
      rw [hmin] at hd
      exact Option.some.inj hd
    · intro habs
      have hd : cfgPriceChangeMaxPct root = some 10 := by
        unfold cfgPriceChangeMaxPct
        rw [configGet_eq_stored_getD, habs]
        rfl
      rw [hmax] at hd
      exact Option.some.inj hd
    · intro pid lo hi hmem
      rcases (optionTraverse_mem _ hv).1 (pid, lo, hi) hmem with ⟨pid', hpid', hf⟩
      cases hcp : currentPriceOf products pid' with
      | none => rw [hcp] at hf; simp at hf
      | some cp =>
        rw [hcp] at hf
        simp only [Option.map_some', Option.some.injEq] at hf
        by_cases hsc : scope.contains pid' = true
        · rw [if_pos hsc] at hf
          simp only [Prod.mk.injEq] at hf
          obtain ⟨rfl, hlo, hhi⟩ := hf
          exact ⟨cp, hcp, Or.inl ⟨hsc, hlo.symm, hhi.symm⟩⟩
        · rw [if_neg hsc] at hf
          simp only [Prod.mk.injEq] at hf
          obtain ⟨rfl, hlo, hhi⟩ := hf
          exact ⟨cp, hcp, Or.inr ⟨Bool.not_eq_true _ ▸ Bool.of_not_eq_true hsc,
            hlo.symm, hhi.symm⟩⟩
    · intro pid hpid cp hcp
      have hexp : pid ∈ expandScope members scope := by
        unfold expandScope
        rw [mem_pdUnique]
        exact List.mem_append_left _ hpid
      rcases (optionTraverse_mem _ hv).2 pid hexp with ⟨b, hb, hfb⟩
      rw [hcp] at hfb
      simp only [Option.map_some', Option.some.injEq] at hfb
      by_cases hsc : scope.contains pid = true
      · rw [if_pos hsc] at hfb
        exact ⟨_, _, hfb ▸ hb⟩
      · rw [if_neg hsc] at hfb
        exact ⟨_, _, hfb ▸ hb⟩

/-- Witness for C3: with an empty configuration (defaults −10/+10), the
requested `p1` at price 10 gets bounds `[9, 11]` and its group-mate `p2`
is pinned at `[20, 20]`. -/
theorem lpDemo_vars_eq :
    buildPriceVars (ConfigVal.dict []) lpDemoProducts lpDemoMembers ["p1"] =
      some [("p1", 9, 11), ("p2", 20, 20)] := by
  have hsym : buildPriceVars (ConfigVal.dict []) lpDemoProducts lpDemoMembers ["p1"] =
      some [("p1", max (1/100) (10 * (1 + -10 / 100)), 10 * (1 + 10 / 100)),
            ("p2", 20, 20)] := rfl
  have h9 : max ((1 : ℚ)/100) (10 * (1 + -10 / 100)) = 9 := by norm_num
  have h11 : (10 : ℚ) * (1 + 10 / 100) = 11 := by norm_num
  rw [hsym, h9, h11]

theorem lp_variable_bounds_witness :
    buildPriceVars (ConfigVal.dict []) lpDemoProducts lpDemoMembers ["p1"] =
        some [("p1", 9, 11), ("p2", 20, 20)] ∧
      (∃ minPct maxPct,
        cfgPriceChangeMinPct (ConfigVal.dict []) = some minPct ∧
        cfgPriceChangeMaxPct (ConfigVal.dict []) = some maxPct ∧
        (storedAtPath (ConfigVal.dict [])
            (pySplitDot "price_change.min_pct") = none → minPct = -10) ∧
        (storedAtPath (ConfigVal.dict [])
            (pySplitDot "price_change.max_pct") = none → maxPct = 10) ∧
        (∀ pid lo hi, (pid, lo, hi) ∈ [("p1", (9 : ℚ), (11 : ℚ)), ("p2", 20, 20)] →
          ∃ cp, currentPriceOf lpDemoProducts pid = some cp ∧
            ((["p1"].contains pid = true ∧
                lo = max (1/100) (cp * (1 + minPct / 100)) ∧
                hi = cp * (1 + maxPct / 100)) ∨
             (["p1"].contains pid = false ∧ lo = cp ∧ hi = cp))) ∧
        (∀ pid ∈ ["p1"], ∀ cp, currentPriceOf lpDemoProducts pid = some cp →
          ∃ lo hi, (pid, lo, hi) ∈ [("p1", (9 : ℚ), (11 : ℚ)), ("p2", 20, 20)])) :=
  ⟨lpDemo_vars_eq,
   lp_variable_bounds (ConfigVal.dict []) lpDemoProducts lpDemoMembers ["p1"]
     [("p1", 9, 11), ("p2", 20, 20)] lpDemo_vars_eq⟩

end PEEng
